import Mathlib

/-!
Shallow embedding of `src/server.js` (EDU AI Lab backend) and proofs of the
spec claims about it.

Conventions of the embedding:
* JS strings are Lean `String`s; `.trim()`, `.toLowerCase()` and
  `.toUpperCase()` are modelled by `jsTrim`, `asciiLower`, `asciiUpper`
  below (ASCII case mapping, standard whitespace), matching the JS
  behaviour on all inputs the claims are about.
* JS numbers are `ℚ`; `NaN` is modelled by `none` in `Option ℚ` at the
  points where the code coerces with unary `+`.
* A JSON request-body field that may be absent is `Option _`
  (`none` stands for JS `undefined`).
* The external model call is an oracle argument of the route functions:
  `ask : String → ℚ → Except String String` stands for the awaited
  `askGemini(prompt, temperature)`, `Except.error` for a thrown exception.
* Route handlers are embedded up to the point the claims need: routes whose
  claims end at the model call return a `RouteStep` (either a 400/413
  rejection or the exact `ModelCall` made); the PDF and tutor routes are
  embedded end-to-end.
-/

/-- Models JS `String.prototype.toLowerCase` for the ASCII strings used by
the server (`Char.toLower` maps exactly the letters `A`–`Z`). -/
def asciiLower (s : String) : String :=
  String.mk (s.data.map Char.toLower)

/-- Models JS `String.prototype.toUpperCase` for the ASCII strings used by
the server. -/
def asciiUpper (s : String) : String :=
  String.mk (s.data.map Char.toUpper)

/-- Models JS `String.prototype.trim`: strip leading and trailing
whitespace. -/
def jsTrim (s : String) : String :=
  String.mk (((s.data.dropWhile Char.isWhitespace).reverse.dropWhile Char.isWhitespace).reverse)

/-- Models JS `Array.prototype.join(sep)` on an array of strings. -/
def joinSep (sep : String) : List String → String
  | [] => ""
  | [x] => x
  | x :: y :: xs => x ++ sep ++ joinSep sep (y :: xs)

/-- The fixed translation-request suffix template of `wrapBilingual`
(server.js line 77), with the language value substituted in its two slots. -/
def translationSuffix (language : String) : String :=
  "\n\n---\n\n🔁 " ++ language ++ " Translation:\nTranslate the entire answer above to "
    ++ language ++ ", preserving structure, headings, lists and tone."

/-- Embedding of `wrapBilingual(text, language)` (server.js lines 75–78).
The JS guard is `!language || /^none$/i.test(language)`: a missing
(`undefined`) or empty language is falsy, and the anchored case-insensitive
regex test is equivalent to ASCII-lowercase equality with `"none"`
(JS `$` does not match before a trailing newline). -/
def wrapBilingual (text : String) (language : Option String) : String :=
  match language with
  | none => text
  | some l =>
    if l = "" ∨ asciiLower l = "none" then text
    else text ++ translationSuffix l

/-- Claim C2: `wrapBilingual` returns the text unchanged when the language is
absent, empty, or equal to "none" case-insensitively, and for any other
non-empty language returns the text with exactly one appended copy of the
fixed suffix template with the language substituted. -/
theorem wrapBilingual_language_gate (text : String) :
    wrapBilingual text none = text ∧
    wrapBilingual text (some "") = text ∧
    (∀ l : String, asciiLower l = "none" → wrapBilingual text (some l) = text) ∧
    (∀ l : String, l ≠ "" → asciiLower l ≠ "none" →
      wrapBilingual text (some l) = text ++ translationSuffix l) := by
  refine ⟨rfl, by simp [wrapBilingual], ?_, ?_⟩
  · intro l h
    simp [wrapBilingual, h]
  · intro l h1 h2
    simp [wrapBilingual, h1, h2]

/-- Witness for C2 at concrete inputs: the mixed-case language "NoNe" leaves
the text unchanged, and "French" appends exactly the suffix template. -/
theorem wrapBilingual_language_gate_witness :
    (asciiLower "NoNe" = "none" ∧ wrapBilingual "hi" (some "NoNe") = "hi") ∧
    (("French" : String) ≠ "" ∧ asciiLower "French" ≠ "none" ∧
      wrapBilingual "hi" (some "French") = "hi" ++ translationSuffix "French") :=
  ⟨⟨by decide, (wrapBilingual_language_gate "hi").2.2.1 "NoNe" (by decide)⟩,
   ⟨by decide, by decide,
    (wrapBilingual_language_gate "hi").2.2.2 "French" (by decide) (by decide)⟩⟩

/-- Models the JS expression `x || d` on numbers: `NaN` (here `none`) and `0`
are falsy and replaced by the default. -/
def jsOr (x : Option ℚ) (d : ℚ) : ℚ :=
  match x with
  | none => d
  | some v => if v = 0 then d else v

/-- Models JS number-to-string conversion for the values these routes
interpolate into prompts; exact on integers, which are the only values
produced from integral JSON inputs. -/
def numToJsString (q : ℚ) : String :=
  if q.den = 1 then toString q.num else toString q

/-- The count expression of POST /generate-quiz (server.js line 315):
`Math.max(1, Math.min(+count || 10, 50))`. The argument is the value of
`+count` after the destructuring default (`none` stands for NaN; an absent
field arrives as `some 10`). -/
def quizCount (count : Option ℚ) : ℚ :=
  max 1 (min (jsOr count 10) 50)

/-- The count expression of POST /flashcards (server.js line 331):
`Math.max(1, Math.min(+count || 20, 100))`. -/
def flashcardsCount (count : Option ℚ) : ℚ :=
  max 1 (min (jsOr count 20) 100)

/-- The variations expression of POST /paraphrase (server.js line 417):
`Math.max(1, Math.min(+variations || 3, 6))`. -/
def paraphraseVariations (variations : Option ℚ) : ℚ :=
  max 1 (min (jsOr variations 3) 6)

/-- A call to `askGemini`: the prompt string and the temperature passed. -/
structure ModelCall where
  prompt : String
  temperature : ℚ
deriving DecidableEq

/-- Outcome of the input-validation stage of a route: either an early JSON
rejection with an HTTP status and the route's error-code string, or the
exact model call the route goes on to make. -/
inductive RouteStep where
  | reject (status : Nat) (errorCode : String)
  | invoke (call : ModelCall)
deriving DecidableEq

/-- Embedding of `promptSummary(text, lang)` (server.js lines 107–137). -/
def promptSummary (text : String) (lang : String) : String :=
  "You are an academic summarizer. Create a deep, structured, readable summary in "
    ++ lang ++ ".\nUse this layout:\n\nTitle: (infer)\n\nExecutive Summary (6–10 sentences):\n- What it\x27s about\n- Why it matters\n- Context/scope\n- Main results or conclusions\n\nKey Concepts (bulleted, concise)\n\nStep-by-Step Explanation (8–14 numbered steps)\n\nExamples & Analogies (2–4)\n\nImportant Data/Formulae (if any)\n\nAssumptions & Limitations (3–6)\n\nImplications & Applications (3–6)\n\nCommon Pitfalls / Misconceptions (3–6)\n\n🎯 10 High-Impact Takeaways (exactly 10 bullets)\n\nSource:\n"
    ++ text

/-- Embedding of `promptQuiz(text, count)` (server.js lines 139–158). -/
def promptQuiz (text : String) (count : ℚ) : String :=
  "Create " ++ numToJsString count
    ++ " multiple-choice questions from the content below.\nRules:\n- Each question should test meaningful understanding.\n- 4 options (A–D), one correct answer.\n- Mix recall, inference, application.\n- After options, give \"Answer: <Letter> — one-line reason\".\n\nFormat exactly:\n\n1) Question text\nA) ...\nB) ...\nC) ...\nD) ...\nAnswer: <Letter> — reason\n\nContent:\n"
    ++ text

/-- Embedding of `promptFlashcards(text, count)` (server.js lines 160–168). -/
def promptFlashcards (text : String) (count : ℚ) : String :=
  "Generate " ++ numToJsString count
    ++ " high-quality active-recall flashcards from the content.\nReturn lines exactly as:\nQ: <question>\nA: <answer>\n\nCONTENT:\n"
    ++ text

/-- Embedding of `promptParaphrase(text, tone, variations)` (server.js lines
192–210). -/
def promptParaphrase (text : String) (tone : String) (variations : ℚ) : String :=
  "Paraphrase the text below into " ++ numToJsString variations
    ++ " distinct versions in a " ++ tone
    ++ " tone.\nRules:\n- Preserve meaning and citations if any.\n- Avoid plagiarism; alter syntax and word choice.\n- For each version, provide a 1-line note about what changed (e.g., simpler syntax, more formal).\nFormat:\n## Version 1\n<text>\nNote: ...\n## Version 2\n<text>\nNote: ...\n## Version 3\n<text>\nNote: ...\nTEXT:\n"
    ++ text

/-- Embedding of POST /chat up to the model call (server.js lines 258–264).
The guard is `!question || !question.trim()`, which for a string field is
equivalent to the trimmed field being empty; the model is then asked the
raw question at temperature 0.7. -/
def chatRoute (question : Option String) : RouteStep :=
  match question with
  | none => .reject 400 "Missing \x27question\x27"
  | some q =>
    if jsTrim q = "" then .reject 400 "Missing \x27question\x27"
    else .invoke ⟨q, 0.7⟩

/-- Embedding of POST /summarize-text up to the model call (server.js lines
272–279): same guard with error code "missing_text", then
`promptSummary(text, "English")` at temperature 0.5. -/
def summarizeTextRoute (text : Option String) : RouteStep :=
  match text with
  | none => .reject 400 "missing_text"
  | some t =>
    if jsTrim t = "" then .reject 400 "missing_text"
    else .invoke ⟨promptSummary t "English", 0.5⟩

/-- Embedding of POST /generate-quiz up to the model call (server.js lines
310–318). `count` is the value of `+count` after the destructuring default
(see `quizCount`). -/
def generateQuizRoute (text : Option String) (count : Option ℚ) : RouteStep :=
  match text with
  | none => .reject 400 "missing_text"
  | some t =>
    if jsTrim t = "" then .reject 400 "missing_text"
    else .invoke ⟨promptQuiz t (quizCount count), 0.7⟩

/-- Embedding of POST /flashcards up to the model call (server.js lines
326–334). -/
def flashcardsRoute (text : Option String) (count : Option ℚ) : RouteStep :=
  match text with
  | none => .reject 400 "missing_text"
  | some t =>
    if jsTrim t = "" then .reject 400 "missing_text"
    else .invoke ⟨promptFlashcards t (flashcardsCount count), 0.6⟩

/-- Models the tone expression of POST /paraphrase (server.js line 417):
`String(tone || "academic")` after the destructuring default, so an absent,
null or empty tone becomes "academic". -/
def paraphraseTone (tone : Option String) : String :=
  match tone with
  | none => "academic"
  | some t => if t = "" then "academic" else t

/-- Embedding of POST /paraphrase up to the model call (server.js lines
413–419). -/
def paraphraseRoute (text : Option String) (tone : Option String)
    (variations : Option ℚ) : RouteStep :=
  match text with
  | none => .reject 400 "missing_text"
  | some t =>
    if jsTrim t = "" then .reject 400 "missing_text"
    else .invoke ⟨promptParaphrase t (paraphraseTone tone) (paraphraseVariations variations), 0.7⟩

/-- Counterexample to claim C1 as stated: for quiz generation, `count = 0`
does not clamp to 1 — `+0` is falsy in JS, so `+count || 10` falls back to
the default 10 before the clamp. -/
theorem quizCount_zero_not_one :
    quizCount (some 0) = 10 ∧ quizCount (some 0) ≠ 1 := by
  constructor <;> norm_num [quizCount, jsOr]

/-- Claim C1 (amended): the count used in the quiz, flashcards and
paraphrase prompts always lies in its documented bounds ([1,50], [1,100],
[1,6] respectively) whatever the input, and count = 500 clamps to 50 for
quiz generation; but a zero count is falsy and falls back to the route
default (10, 20 and 3 respectively) rather than clamping to 1; the clamped
value is exactly the one interpolated into the prompt of the model call. -/
theorem countClamp_bounds :
    (∀ c, 1 ≤ quizCount c ∧ quizCount c ≤ 50) ∧
    (∀ c, 1 ≤ flashcardsCount c ∧ flashcardsCount c ≤ 100) ∧
    (∀ c, 1 ≤ paraphraseVariations c ∧ paraphraseVariations c ≤ 6) ∧
    quizCount (some 500) = 50 ∧
    quizCount (some 0) = 10 ∧
    flashcardsCount (some 0) = 20 ∧
    paraphraseVariations (some 0) = 3 ∧
    (∀ t c tone v, jsTrim t ≠ "" →
      generateQuizRoute (some t) c = .invoke ⟨promptQuiz t (quizCount c), 0.7⟩ ∧
      flashcardsRoute (some t) c = .invoke ⟨promptFlashcards t (flashcardsCount c), 0.6⟩ ∧
      paraphraseRoute (some t) tone v
        = .invoke ⟨promptParaphrase t (paraphraseTone tone) (paraphraseVariations v), 0.7⟩) := by
  refine ⟨?_, ?_, ?_, ?_, ?_, ?_, ?_, ?_⟩
  · exact fun c => ⟨le_max_left 1 _, max_le (by norm_num) (min_le_right _ _)⟩
  · exact fun c => ⟨le_max_left 1 _, max_le (by norm_num) (min_le_right _ _)⟩
  · exact fun c => ⟨le_max_left 1 _, max_le (by norm_num) (min_le_right _ _)⟩
  · norm_num [quizCount, jsOr]
  · norm_num [quizCount, jsOr]
  · norm_num [flashcardsCount, jsOr]
  · norm_num [paraphraseVariations, jsOr]
  · intro t c tone v h
    refine ⟨?_, ?_, ?_⟩ <;> simp [generateQuizRoute, flashcardsRoute, paraphraseRoute, h]

/-- Witness for the amended C1 at a concrete request: nonempty text "t"
with count 500 reaches the model call with the clamped count. -/
theorem countClamp_bounds_witness :
    jsTrim "t" ≠ "" ∧
    generateQuizRoute (some "t") (some 500)
      = .invoke ⟨promptQuiz "t" (quizCount (some 500)), 0.7⟩ :=
  ⟨by decide, (countClamp_bounds.2.2.2.2.2.2.2 "t" (some 500) none (some 500) (by decide)).1⟩

/-- Claim C3: on the text-input routes /chat, /summarize-text and
/generate-quiz, a missing, empty or whitespace-only required field is
rejected with status 400 and the route's fixed error-code string, and no
model call is made (the route result is a rejection, not an invocation). -/
theorem missing_text_rejected :
    chatRoute none = .reject 400 "Missing \x27question\x27" ∧
    summarizeTextRoute none = .reject 400 "missing_text" ∧
    (∀ c, generateQuizRoute none c = .reject 400 "missing_text") ∧
    (∀ s, jsTrim s = "" →
      chatRoute (some s) = .reject 400 "Missing \x27question\x27" ∧
      summarizeTextRoute (some s) = .reject 400 "missing_text" ∧
      ∀ c, generateQuizRoute (some s) c = .reject 400 "missing_text") := by
  refine ⟨rfl, rfl, fun c => rfl, ?_⟩
  intro s h
  refine ⟨?_, ?_, fun c => ?_⟩ <;> simp [chatRoute, summarizeTextRoute, generateQuizRoute, h]

/-- Witness for C3 at a concrete whitespace-only field. -/
theorem missing_text_rejected_witness :
    jsTrim "  \n " = "" ∧
    chatRoute (some "  \n ") = .reject 400 "Missing \x27question\x27" :=
  ⟨by decide, (missing_text_rejected.2.2.2 "  \n " (by decide)).1⟩

/-- One part of a content entry in a generation request. -/
structure GenPart where
  text : String
deriving DecidableEq

/-- One role-tagged content entry of a generation request. -/
structure GenContent where
  role : String
  parts : List GenPart
deriving DecidableEq

/-- The generation configuration passed to the SDK. -/
structure GenerationConfig where
  temperature : ℚ
deriving DecidableEq

/-- The argument object of `model.generateContent` as built by `askGemini`
(server.js lines 67–70). -/
structure GenRequest where
  contents : List GenContent
  generationConfig : GenerationConfig
deriving DecidableEq

/-- Model of the SDK response object: `text = some s` means the `text`
method exists and returns `s`; `none` means `res.response.text` is absent
(falsy). -/
structure SdkResponse where
  text : Option String
deriving DecidableEq

/-- Model of the SDK result: `response = none` means `res.response` is
absent. An absent result itself is `Option SdkResult = none` at the call
site. -/
structure SdkResult where
  response : Option SdkResponse
deriving DecidableEq

/-- The request `askGemini` sends: one user-role content holding the prompt,
and the temperature in the generation config. -/
def askRequest (prompt : String) (temperature : ℚ) : GenRequest :=
  ⟨[⟨"user", [⟨prompt⟩]⟩], ⟨temperature⟩⟩

/-- Embedding of `askGemini(prompt, temperature)` (server.js lines 66–73).
The external SDK is the oracle `model`; the JS body is
`txt = res?.response?.text ? res.response.text() : ""` followed by
`return (txt || "").trim()`. -/
def askGemini (model : GenRequest → Option SdkResult) (prompt : String)
    (temperature : ℚ) : String :=
  let res := model (askRequest prompt temperature)
  let txt : String :=
    match res with
    | some r =>
      match r.response with
      | some resp =>
        match resp.text with
        | some t => t
        | none => ""
      | none => ""
    | none => ""
  jsTrim (if txt = "" then "" else txt)

/-- Claim C7: `askGemini` sends a user-role prompt with the given
temperature and returns the trimmed text of the response, or the empty
string when the result, its response, or its text is absent (and hence also
when the text is empty, since trimming fixes the empty string). -/
theorem askGemini_trims_first_response (model : GenRequest → Option SdkResult)
    (prompt : String) (temperature : ℚ) :
    (∀ s, model (askRequest prompt temperature) = some ⟨some ⟨some s⟩⟩ →
      askGemini model prompt temperature = jsTrim s) ∧
    (model (askRequest prompt temperature) = none →
      askGemini model prompt temperature = "") ∧
    (model (askRequest prompt temperature) = some ⟨none⟩ →
      askGemini model prompt temperature = "") ∧
    (model (askRequest prompt temperature) = some ⟨some ⟨none⟩⟩ →
      askGemini model prompt temperature = "") := by
  refine ⟨?_, ?_, ?_, ?_⟩
  · intro s h
    by_cases hs : s = "" <;> simp [askGemini, h, hs]
  · intro h
    simp [askGemini, h]
    rfl
  · intro h
    simp [askGemini, h]
    rfl
  · intro h
    simp [askGemini, h]
    rfl

/-- Witness for C7 with a concrete oracle whose response text is " hi ". -/
theorem askGemini_trims_first_response_witness :
    (fun _ : GenRequest => some (SdkResult.mk (some (SdkResponse.mk (some " hi ")))))
        (askRequest "p" 0.7)
      = some (SdkResult.mk (some (SdkResponse.mk (some " hi ")))) ∧
    askGemini (fun _ => some (SdkResult.mk (some (SdkResponse.mk (some " hi "))))) "p" 0.7
      = jsTrim " hi " :=
  ⟨rfl, (askGemini_trims_first_response _ "p" 0.7).1 " hi " rfl⟩

/-- Models Node `path.extname` on the posix path names the upload route
sees: the extension of the part after the last separator, empty when there
is no dot, when the only dot is the leading dot of the basename, or when
the basename is "..". -/
def basenameOf (s : String) : String :=
  String.mk ((s.data.reverse.takeWhile (fun c => c ≠ '/')).reverse)

/-- Extension part of a file name, following Node `path.extname`. -/
def extname (s : String) : String :=
  let base := (basenameOf s).data
  let afterDot := base.reverse.takeWhile (fun c => c ≠ '.')
  if afterDot.length = base.length then ""
  else if afterDot.length + 1 = base.length then ""
  else if base = ['.', '.'] then ""
  else String.mk ('.' :: afterDot.reverse)

/-- The fields of `req.file` the PDF route uses: the client-supplied
original file name and the multer temporary path. -/
structure Upload where
  originalname : String
  tempPath : String
deriving DecidableEq

/-- Final HTTP outcome of a fully embedded route. -/
inductive Response where
  | reject (status : Nat) (errorCode : String)
  | ok (body : String)
deriving DecidableEq

/-- Embedding of POST /summarize-pdf (server.js lines 287–307). `parsePdf`
stands for the awaited `readPdf` (an exception is `Except.error`), `ask`
for `askGemini`. The boolean of the pair records whether the `finally`
block ran `fs.unlinkSync(req.file.path)`; when `req.file` is absent the
handler returns before the `try`, and no temporary file exists. -/
def summarizePdf (file : Option Upload) (parsePdf : String → Except String String)
    (ask : String → ℚ → Except String String) (language : Option String) :
    Response × Bool :=
  match file with
  | none => (.reject 400 "no_file", false)
  | some f =>
    if asciiLower (extname f.originalname) ≠ ".pdf" then
      (.reject 400 "unsupported_type", true)
    else
      match parsePdf f.tempPath with
      | .error _ => (.reject 500 "summarize_pdf_failed", true)
      | .ok text =>
        if jsTrim text = "" then (.reject 400 "empty_pdf", true)
        else
          match ask (promptSummary text "English") 0.4 with
          | .error _ => (.reject 500 "summarize_pdf_failed", true)
          | .ok summary => (.ok (wrapBilingual summary language), true)

/-- Claim C4: a filename whose (case-insensitive) extension is not ".pdf"
is rejected with 400 "unsupported_type", and on every upload — success,
parse error, empty PDF, unsupported type, even a failed model call — the
temporary file is removed before the handler finishes. -/
theorem summarizePdf_type_and_cleanup :
    (∀ f parsePdf ask language, asciiLower (extname f.originalname) ≠ ".pdf" →
      summarizePdf (some f) parsePdf ask language
        = (.reject 400 "unsupported_type", true)) ∧
    (∀ f parsePdf ask language,
      (summarizePdf (some f) parsePdf ask language).2 = true) := by
  constructor
  · intro f parsePdf ask language h
    simp [summarizePdf, h]
  · intro f parsePdf ask language
    by_cases h : asciiLower (extname f.originalname) = ".pdf"
    · cases hp : parsePdf f.tempPath with
      | error e => simp [summarizePdf, h, hp]
      | ok text =>
        by_cases ht : jsTrim text = ""
        · simp [summarizePdf, h, hp, ht]
        · cases ha : ask (promptSummary text "English") 0.4 with
          | error e => simp [summarizePdf, h, hp, ht, ha]
          | ok s => simp [summarizePdf, h, hp, ht, ha]
    · simp [summarizePdf, h]

/-- Witness for C4: the upload "notes.txt" is rejected as unsupported and
its temporary file is deleted. -/
theorem summarizePdf_type_and_cleanup_witness :
    asciiLower (extname "notes.txt") ≠ ".pdf" ∧
    summarizePdf (some ⟨"notes.txt", "/tmp/u1"⟩) (fun _ => .ok "")
        (fun _ _ => .ok "") none
      = (.reject 400 "unsupported_type", true) :=
  ⟨by decide,
   summarizePdf_type_and_cleanup.1 ⟨"notes.txt", "/tmp/u1"⟩ (fun _ => .ok "")
     (fun _ _ => .ok "") none (by decide)⟩

/-- A JSON value as delivered by `express.json()`; `undefined` cannot occur
inside a parsed body, so an absent field is `Option JsValue = none` at the
top level only. -/
inductive JsValue where
  | vstr (s : String)
  | vnum (n : Int)
  | vbool (b : Bool)
  | vnull
  | varr (elems : List JsValue)
  | vobj (fields : List (String × JsValue))

/-- Lower-case hexadecimal digit, as used by JSON.stringify escapes. -/
def hexDigit (n : Nat) : Char :=
  if n < 10 then Char.ofNat (48 + n) else Char.ofNat (87 + n)

/-- Escape of one character inside a JSON string literal. -/
def jsonEscapeChar (c : Char) : String :=
  if c = '"' then "\\\""
  else if c = '\\' then "\\\\"
  else if c = '\x08' then "\\b"
  else if c = '\x0c' then "\\f"
  else if c = '\n' then "\\n"
  else if c = '\r' then "\\r"
  else if c = '\t' then "\\t"
  else if c.toNat < 32 then
    String.mk ['\\', 'u', '0', '0', hexDigit (c.toNat / 16), hexDigit (c.toNat % 16)]
  else String.mk [c]

/-- A JSON string literal for `s`. -/
def jsonQuote (s : String) : String :=
  "\"" ++ String.join (s.data.map jsonEscapeChar) ++ "\""

mutual

/-- Models `JSON.stringify` on parsed-JSON values (JSON numbers restricted
to the integers; no claim touches non-integral numbers). -/
def jsonStringify : JsValue → String
  | .vstr s => jsonQuote s
  | .vnum n => toString n
  | .vbool b => if b then "true" else "false"
  | .vnull => "null"
  | .varr es => "[" ++ joinSep "," (jsonStringifyList es) ++ "]"
  | .vobj fs => "\x7b" ++ joinSep "," (jsonStringifyFields fs) ++ "\x7d"

/-- Stringification of the elements of a JSON array. -/
def jsonStringifyList : List JsValue → List String
  | [] => []
  | v :: vs => jsonStringify v :: jsonStringifyList vs

/-- Stringification of the fields of a JSON object. -/
def jsonStringifyFields : List (String × JsValue) → List String
  | [] => []
  | (k, v) :: fs => (jsonQuote k ++ ":" ++ jsonStringify v) :: jsonStringifyFields fs

end

/-- Models the JS `String(v)` coercion for the values reaching the final
branch of `normalizeRefs`. Arrays never reach that branch (the
`Array.isArray` branch catches them first), so their case is irrelevant. -/
def stringCoerce : JsValue → String
  | .vstr s => s
  | .vnum n => toString n
  | .vbool b => if b then "true" else "false"
  | .vnull => "null"
  | .varr _ => ""
  | .vobj _ => "[object Object]"

/-- Models the final branch of `normalizeRefs` (server.js line 473):
`String(input ?? "").trim()` — the nullish coalescing turns both
`undefined` and `null` into the empty string. -/
def coerceFallback (input : Option JsValue) : String :=
  jsTrim (match input with
    | none => ""
    | some .vnull => ""
    | some v => stringCoerce v)

/-- Embedding of `normalizeRefs(input)` (server.js lines 462–474): an array
is mapped (strings kept, anything else JSON-stringified), the results
trimmed, empties dropped and the rest joined with newlines; a string is
trimmed; anything else is coerced with `String(input ?? "")` and trimmed. -/
def normalizeRefs (input : Option JsValue) : String :=
  match input with
  | some (.varr xs) =>
    joinSep "\n"
      (((xs.map fun r => match r with | .vstr s => s | v => jsonStringify v).map
        jsTrim).filter fun s => s != "")
  | some (.vstr s) => jsTrim s
  | _ => coerceFallback input

/-- Embedding of `promptCitations(refs, style)` (server.js lines 222–228). -/
def promptCitations (refs : String) (style : String) : String :=
  "Format the following references in " ++ style
    ++ " style.\nIf any fields are missing, infer reasonably and mark [n.d.] or [Place unknown] as needed.\nReturn as a numbered list, then a plain-text bibliography block.\nREFERENCES:\n"
    ++ refs

/-- Models the JS `.length` of a string (code-unit count; identical to the
code-point count on the inputs considered here). -/
def jsLength (s : String) : Nat := s.data.length

/-- Embedding of POST /generate-citations up to the model call (server.js
lines 477–499): normalize the references, reject 400 when empty, 413 when
longer than 100000, else call the model on the citation prompt at
temperature 0.4 with the destructuring-default style "APA". -/
def generateCitationsRoute (references : Option JsValue)
    (style : Option String) : RouteStep :=
  let refsText := normalizeRefs references
  if refsText = "" then .reject 400 "missing_references"
  else if 100000 < jsLength refsText then .reject 413 "payload_too_large"
  else .invoke ⟨promptCitations refsText (style.getD "APA"), 0.4⟩

/-- Claim C5: a string references value is normalized by trimming; array
values are element-wise stringified, trimmed, filtered of empties and
newline-joined (shown on a concrete mixed array); both the empty array and
the whitespace-only string are rejected with the same 400
"missing_references"; and every nonempty normalization within the size
guard is exactly what is interpolated into the citation prompt. -/
theorem citations_normalization :
    (∀ style, generateCitationsRoute (some (.varr [])) style
      = .reject 400 "missing_references") ∧
    (∀ s style, jsTrim s = "" →
      generateCitationsRoute (some (.vstr s)) style
        = .reject 400 "missing_references") ∧
    (∀ s, normalizeRefs (some (.vstr s)) = jsTrim s) ∧
    normalizeRefs (some (.varr [.vstr "  a  ", .vstr "   ", .vnum 3]))
      = "a\n3" ∧
    (∀ refs style, normalizeRefs refs ≠ "" →
      jsLength (normalizeRefs refs) ≤ 100000 →
      generateCitationsRoute refs style
        = .invoke ⟨promptCitations (normalizeRefs refs) (style.getD "APA"), 0.4⟩) := by
  refine ⟨fun style => rfl, ?_, fun s => rfl, ?_, ?_⟩
  · intro s style h
    simp [generateCitationsRoute, normalizeRefs, h]
  · simp [normalizeRefs, jsonStringify]
    decide
  · intro refs style h1 h2
    simp [generateCitationsRoute, h1, Nat.not_lt.mpr h2]

/-- Witness for C5 at a concrete whitespace-only string and a concrete
nonempty string. -/
theorem citations_normalization_witness :
    (jsTrim " \t " = "" ∧
      generateCitationsRoute (some (.vstr " \t ")) none
        = .reject 400 "missing_references") ∧
    (normalizeRefs (some (.vstr "Knuth 1968")) ≠ "" ∧
      jsLength (normalizeRefs (some (.vstr "Knuth 1968"))) ≤ 100000 ∧
      generateCitationsRoute (some (.vstr "Knuth 1968")) none
        = .invoke ⟨promptCitations (normalizeRefs (some (.vstr "Knuth 1968")))
            ((none : Option String).getD "APA"), 0.4⟩) :=
  ⟨⟨by decide, citations_normalization.2.1 " \t " none (by decide)⟩,
   ⟨by decide, by decide,
    citations_normalization.2.2.2.2 (some (.vstr "Knuth 1968")) none
      (by decide) (by decide)⟩⟩

/-- Claim C10: a references value that is neither a string nor an array is
handled by the `String(input ?? "").trim()` fallback, so a value with a
nonempty string form — such as the number 42 — passes the
missing_references check and its coerced text is sent onward in the
prompt. -/
theorem citations_nonstring_fallback :
    (∀ v : JsValue, (∀ s, v ≠ .vstr s) → (∀ xs, v ≠ .varr xs) →
      normalizeRefs (some v) = coerceFallback (some v)) ∧
    normalizeRefs (some (.vnum 42)) = "42" ∧
    (∀ style, generateCitationsRoute (some (.vnum 42)) style
      = .invoke ⟨promptCitations "42" (style.getD "APA"), 0.4⟩) ∧
    (∀ (v : JsValue) style, (∀ s, v ≠ .vstr s) → (∀ xs, v ≠ .varr xs) →
      coerceFallback (some v) ≠ "" →
      jsLength (coerceFallback (some v)) ≤ 100000 →
      generateCitationsRoute (some v) style
        = .invoke ⟨promptCitations (coerceFallback (some v)) (style.getD "APA"), 0.4⟩) := by
  have hbranch : ∀ v : JsValue, (∀ s, v ≠ .vstr s) → (∀ xs, v ≠ .varr xs) →
      normalizeRefs (some v) = coerceFallback (some v) := by
    intro v hs hx
    cases v with
    | vstr s => exact absurd rfl (hs s)
    | varr xs => exact absurd rfl (hx xs)
    | vnum n => rfl
    | vbool b => rfl
    | vnull => rfl
    | vobj fs => rfl
  refine ⟨hbranch, by decide, ?_, ?_⟩
  · intro style
    have h42 : normalizeRefs (some (.vnum 42)) = "42" := by decide
    have h0 : ¬ (normalizeRefs (some (.vnum 42)) = "") := by decide
    have h1 : ¬ (100000 < jsLength (normalizeRefs (some (.vnum 42)))) := by decide
    simp [generateCitationsRoute, h0, h1, h42]
    decide
  intro v style hs hx h1 h2
  have hv := hbranch v hs hx
  simp [generateCitationsRoute, hv, h1, Nat.not_lt.mpr h2]

/-- Witness for C10 at the number 42. -/
theorem citations_nonstring_fallback_witness :
    coerceFallback (some (.vnum 42)) ≠ "" ∧
    jsLength (coerceFallback (some (.vnum 42))) ≤ 100000 ∧
    generateCitationsRoute (some (.vnum 42)) none
      = .invoke ⟨promptCitations (coerceFallback (some (.vnum 42)))
          ((none : Option String).getD "APA"), 0.4⟩ :=
  ⟨by decide, by decide,
   citations_nonstring_fallback.2.2.2 (.vnum 42) none (fun s => by simp)
     (fun xs => by simp) (by decide) (by decide)⟩

/-- One conversational turn of the tutoring memory (server.js line 432):
a role string and the turn text. -/
structure Turn where
  role : String
  text : String
deriving DecidableEq

/-- The line a turn contributes to the conversation block (server.js line
433): the upper-cased role, a colon and the text. -/
def turnLine (m : Turn) : String :=
  asciiUpper m.role ++ ": " ++ m.text

/-- The fixed instruction prefix of the tutor prompt (server.js lines
434–435). -/
def tutorPreamble : String :=
  "You are a patient subject-matter tutor. Continue the conversation. Use Socratic questioning and examples. Keep answers concise but helpful.\nConversation so far:\n"

/-- The tutor prompt built from a memory state: the preamble followed by
every turn's line, joined with newlines. -/
def tutorPrompt (mem : List Turn) : String :=
  tutorPreamble ++ joinSep "\n" (mem.map turnLine)

/-- Everything one POST /tutor call produces: the tutoring memory after the
call, the model call made (if any), and the HTTP response. -/
structure TutorOutcome where
  memory : List Turn
  call : Option ModelCall
  response : Response

/-- Embedding of one POST /tutor call (server.js lines 428–444) against the
memory state `mem`. The user turn is pushed before the model call; the
assistant turn is pushed only when the call returns; a thrown model call is
caught and answered with 500 "tutor_failed", leaving the pushed user turn
in place. -/
def tutorCall (mem : List Turn) (question : Option String)
    (language : Option String) (ask : String → ℚ → Except String String) :
    TutorOutcome :=
  match question with
  | none => ⟨mem, none, .reject 400 "missing_question"⟩
  | some q =>
    if jsTrim q = "" then ⟨mem, none, .reject 400 "missing_question"⟩
    else
      let mem1 := mem ++ [Turn.mk "user" q]
      let prompt := tutorPrompt mem1
      match ask prompt 0.7 with
      | .error _ => ⟨mem1, some ⟨prompt, 0.7⟩, .reject 500 "tutor_failed"⟩
      | .ok answer =>
        ⟨mem1 ++ [⟨"assistant", answer⟩], some ⟨prompt, 0.7⟩,
         .ok (wrapBilingual answer language)⟩

/-- Folding a sequence of /tutor requests (question and language of each)
over the process-lifetime memory. -/
def runTutor (ask : String → ℚ → Except String String) (mem : List Turn) :
    List (Option String × Option String) → List Turn
  | [] => mem
  | c :: rest => runTutor ask (tutorCall mem c.1 c.2 ask).memory rest

/-- Helper: one tutor call only ever appends to the memory. -/
theorem tutorCall_memory_extends (mem : List Turn) (question : Option String)
    (language : Option String) (ask : String → ℚ → Except String String) :
    ∃ t, (tutorCall mem question language ask).memory = mem ++ t := by
  cases question with
  | none => exact ⟨[], by simp [tutorCall]⟩
  | some q =>
    by_cases hq : jsTrim q = ""
    · exact ⟨[], by simp [tutorCall, hq]⟩
    · cases ha : ask (tutorPrompt (mem ++ [Turn.mk "user" q])) 0.7 with
      | error e => exact ⟨[Turn.mk "user" q], by simp [tutorCall, hq, ha]⟩
      | ok a =>
        exact ⟨[Turn.mk "user" q, Turn.mk "assistant" a], by simp [tutorCall, hq, ha]⟩

/-- Claim C6: across any sequence of /tutor calls the memory grows by
appending only (the old memory is always a prefix of the new one), and a
successful call appends exactly the user and assistant turns while the
prompt it sends is the preamble followed by every accumulated turn's line,
in order. -/
theorem tutor_memory_accumulates :
    (∀ ask mem calls, ∃ rest, runTutor ask mem calls = mem ++ rest) ∧
    (∀ mem q language ask a, jsTrim q ≠ "" →
      ask (tutorPrompt (mem ++ [Turn.mk "user" q])) 0.7 = .ok a →
      (tutorCall mem (some q) language ask).memory
        = mem ++ [Turn.mk "user" q, Turn.mk "assistant" a] ∧
      (tutorCall mem (some q) language ask).call
        = some ⟨tutorPrompt (mem ++ [Turn.mk "user" q]), 0.7⟩ ∧
      tutorPrompt (mem ++ [Turn.mk "user" q])
        = tutorPreamble ++ joinSep "\n" ((mem ++ [Turn.mk "user" q]).map turnLine)) := by
  constructor
  · intro ask mem calls
    induction calls generalizing mem with
    | nil => exact ⟨[], by simp [runTutor]⟩
    | cons c rest ih =>
      obtain ⟨t1, h1⟩ := tutorCall_memory_extends mem c.1 c.2 ask
      obtain ⟨t2, h2⟩ := ih ((tutorCall mem c.1 c.2 ask).memory)
      refine ⟨t1 ++ t2, ?_⟩
      simp only [runTutor]
      rw [h2, h1, List.append_assoc]
  · intro mem q language ask a hq ha
    refine ⟨?_, ?_, rfl⟩ <;> simp [tutorCall, hq, ha]

/-- Witness for C6: a successful first call on an empty memory stores both
turns and sends the expected prompt. -/
theorem tutor_memory_accumulates_witness :
    jsTrim "hello" ≠ "" ∧
    ((fun _ _ => Except.ok "ans") : String → ℚ → Except String String)
        (tutorPrompt ([] ++ [Turn.mk "user" "hello"])) 0.7 = Except.ok "ans" ∧
    (tutorCall [] (some "hello") none fun _ _ => Except.ok "ans").memory
      = [] ++ [Turn.mk "user" "hello", Turn.mk "assistant" "ans"] :=
  ⟨by decide, rfl,
   (tutor_memory_accumulates.2 [] "hello" none (fun _ _ => Except.ok "ans") "ans"
     (by decide) rfl).1⟩

/-- Claim C8: when the model call of /tutor throws, the route answers 500
"tutor_failed" but the memory keeps the already-pushed user turn and gains
no assistant turn, so the next call's prompt is built over a history that
still holds the failed question. -/
theorem tutor_failure_keeps_user_turn :
    ∀ mem q language ask e, jsTrim q ≠ "" →
      ask (tutorPrompt (mem ++ [Turn.mk "user" q])) 0.7 = .error e →
      (tutorCall mem (some q) language ask).memory = mem ++ [Turn.mk "user" q] ∧
      (tutorCall mem (some q) language ask).response
        = .reject 500 "tutor_failed" ∧
      (∀ q2 language2 ask2, jsTrim q2 ≠ "" →
        (tutorCall (tutorCall mem (some q) language ask).memory (some q2)
            language2 ask2).call
          = some ⟨tutorPrompt (mem ++ [Turn.mk "user" q, Turn.mk "user" q2]), 0.7⟩) := by
  intro mem q language ask e hq ha
  have hmem : (tutorCall mem (some q) language ask).memory
      = mem ++ [Turn.mk "user" q] := by simp [tutorCall, hq, ha]
  refine ⟨hmem, by simp [tutorCall, hq, ha], ?_⟩
  intro q2 language2 ask2 hq2
  rw [hmem]
  cases ha2 : ask2 (tutorPrompt (mem ++ [Turn.mk "user" q, Turn.mk "user" q2])) 0.7 with
  | error e2 => simp [tutorCall, hq2, ha2]
  | ok a2 => simp [tutorCall, hq2, ha2]

/-- Witness for C8: a failing first call keeps the question "hello" in
memory and answers 500. -/
theorem tutor_failure_keeps_user_turn_witness :
    jsTrim "hello" ≠ "" ∧
    ((fun _ _ => Except.error "boom") : String → ℚ → Except String String)
        (tutorPrompt ([] ++ [Turn.mk "user" "hello"])) 0.7 = Except.error "boom" ∧
    (tutorCall [] (some "hello") none fun _ _ => Except.error "boom").memory
      = [] ++ [Turn.mk "user" "hello"] :=
  ⟨by decide, rfl,
   (tutor_failure_keeps_user_turn [] "hello" none (fun _ _ => Except.error "boom")
     "boom" (by decide) rfl).1⟩

/-- Claim C9: on a successful /tutor call with a real (non-"none") language,
the assistant turn stored in memory is the raw model answer, while only the
HTTP response carries the appended translation suffix. -/
theorem tutor_stores_unwrapped_answer :
    ∀ mem q l ask a, jsTrim q ≠ "" →
      ask (tutorPrompt (mem ++ [Turn.mk "user" q])) 0.7 = .ok a →
      l ≠ "" → asciiLower l ≠ "none" →
      (tutorCall mem (some q) (some l) ask).memory
        = mem ++ [Turn.mk "user" q, Turn.mk "assistant" a] ∧
      (tutorCall mem (some q) (some l) ask).response
        = .ok (a ++ translationSuffix l) := by
  intro mem q l ask a hq ha hl1 hl2
  constructor
  · simp [tutorCall, hq, ha]
  · simp [tutorCall, hq, ha, wrapBilingual, hl1, hl2]

/-- Witness for C9: with language "French" the stored turn is the raw
answer and the response is the answer plus the suffix. -/
theorem tutor_stores_unwrapped_answer_witness :
    jsTrim "hello" ≠ "" ∧ ("French" : String) ≠ "" ∧
    asciiLower "French" ≠ "none" ∧
    (tutorCall [] (some "hello") (some "French") fun _ _ => Except.ok "ans").response
      = .ok ("ans" ++ translationSuffix "French") :=
  ⟨by decide, by decide, by decide,
   (tutor_stores_unwrapped_answer [] "hello" "French" (fun _ _ => Except.ok "ans")
     "ans" (by decide) rfl (by decide) (by decide)).2⟩
